import Mathlib

/-!
Shallow embedding of `src/blog_to_podcast_agent.py` (a Streamlit blog→podcast
pipeline) and proofs of its specified fallback / invariant properties.

External effects are modelled by oracles collected in `Env`:
network calls (Firecrawl scrape, requests.get, OpenAI chat completion,
ElevenLabs generate, OpenAI TTS) are functions returning `Except String _`
(`.error` models a raised exception), the process environment is an
association list threaded through the run, and the local filesystem is the
list of file names currently present.  The main Streamlit action block
(lines 230–316 of the source) is embedded as `runPipeline`, split into the
same stages the source executes in order: `decideSource` (lines 237–262),
the empty-content check, `generate_podcast_script`, and `synthesisStage`
(lines 272–298).  Python string truthiness and `str.strip` / slicing are
modelled by `pyTruthy`, `pyStrip`, `pySlice`.
-/

namespace BlogToPodcast

/-- Python truthiness of a `str`: only the empty string is falsy. -/
def pyTruthy (s : String) : Bool := s != ""

/-- Python `str.strip()`: drop whitespace from both ends. -/
def pyStrip (s : String) : String :=
  ⟨((s.data.dropWhile Char.isWhitespace).reverse.dropWhile Char.isWhitespace).reverse⟩

/-- Python slicing `s[:n]`: the first `n` characters. -/
def pySlice (s : String) (n : Nat) : String := ⟨s.data.take n⟩

/-- Source line 86: the OpenAI (default engine) voice catalog. -/
def openai_voices : List String := ["coral", "alloy", "verse", "spark", "lunar"]

/-- Source line 87: the ElevenLabs (premium engine) voice catalog. -/
def elevenlabs_voices : List String := ["Rachel", "Adam", "Bella", "Dorothy", "James"]

/-- Shape of the dictionary returned by `firecrawl.scrape` (source line 115).
`truthy` models the Python `not doc` test, `hasData` / `hasMarkdown` model the
key-membership tests, `markdown` the value (`none` models `None`). -/
structure FirecrawlDoc where
  truthy : Bool
  hasData : Bool
  hasMarkdown : Bool
  markdown : Option String
deriving DecidableEq

/-- Parsed HTML page as seen by `fetch_content_with_requests`:
`article = some ps` models a present `<article>` tag whose `<p>` descendants
have stripped texts `ps`; `paragraphs` are the stripped texts of all `<p>`
tags of the page.  (`p.get_text(strip=True)` is applied already.) -/
structure Page where
  article : Option (List String)
  paragraphs : List String
deriving DecidableEq

/-- Oracles for every external effect of the script. -/
structure Env where
  /-- `Firecrawl is not None` (the import succeeded, source lines 12–15). -/
  firecrawlInstalled : Bool
  /-- `Firecrawl(api_key).scrape(url, formats=markdown)`; `.error` = raised. -/
  scrape : String → String → Except String FirecrawlDoc
  /-- `requests.get(url, timeout=20)` + `raise_for_status` + HTML parse. -/
  requestsGet : String → Except String Page
  /-- `client.chat.completions.create` on the prompt built from the source
  text and `max_chars`; `.ok` is the message content. -/
  chat : String → Nat → Except String String
  /-- `ElevenLabs is not None and eleven_save is not None` (lines 17–22). -/
  elevenInstalled : Bool
  /-- `client.generate(text=…, voice=…, model=…)`; `.ok` is the audio. -/
  elevenGenerate : String → String → String → Except String (List Nat)
  /-- The fresh `podcast_<uuid4>_11labs.mp3` name of this call. -/
  elevenTmp : String
  /-- Whether `eleven_save(audio, str(tmp_path))` (line 194) raises after
  creating the file. -/
  elevenSaveFails : Bool
  /-- Whether `tmp_path.read_bytes()` (line 195) raises. -/
  elevenReadFails : Bool
  /-- Whether `tmp_path.unlink(missing_ok=True)` raises (line 197). -/
  elevenUnlinkFails : Bool
  /-- The `client.audio.speech.with_streaming_response.create(...)` call
  (lines 208–213) raising before any file exists; `.ok` is the audio that
  `stream_to_file` will write. -/
  openaiSpeech : String → String → Except String (List Nat)
  /-- The fresh `podcast_<uuid4>_openai.mp3` name of this call. -/
  openaiTmp : String
  /-- Whether `response.stream_to_file(audio_path)` (line 214) raises after
  creating the file. -/
  openaiStreamFails : Bool
  /-- Whether `audio_path.read_bytes()` (line 216) raises. -/
  openaiReadFails : Bool
  /-- Whether `audio_path.unlink(missing_ok=True)` raises (line 218). -/
  openaiUnlinkFails : Bool

/-- The process environment, `os.environ`, as an association list. -/
def environSet (environ : List (String × String)) (k v : String) :
    List (String × String) :=
  if environ.any (fun p => p.1 = k) then
    environ.map (fun p => if p.1 = k then (k, v) else p)
  else
    environ ++ [(k, v)]

/-- The `OpenAI(api_key=…)` client object. -/
structure OpenAIClient where
  api_key : String
deriving DecidableEq

/-- Source lines 103–106: `get_openai_client` stores the key into
`os.environ["OPENAI_API_KEY"]` and returns the client. -/
def get_openai_client (environ : List (String × String)) (api_key : String) :
    OpenAIClient × List (String × String) :=
  (⟨api_key⟩, environSet environ "OPENAI_API_KEY" api_key)

/-- Source lines 109–120: `fetch_content_with_firecrawl`. -/
def fetch_content_with_firecrawl (env : Env) (url : String) (api_key : String) :
    Except String String :=
  if env.firecrawlInstalled = false then
    .error "firecrawl-py is not installed, but Firecrawl was requested."
  else
    match env.scrape url api_key with
    | .error e => .error e
    | .ok doc =>
      if !doc.truthy || !doc.hasData || !doc.hasMarkdown then
        .error "Unexpected Firecrawl response"
      else
        .ok (pyStrip (doc.markdown.getD ""))

/-- Source lines 123–148: `fetch_content_with_requests`.  Keeps the non-empty
stripped paragraph texts (preferring those inside `<article>`), joins them
with blank lines and truncates to 15000 characters. -/
def fetch_content_with_requests (env : Env) (url : String) :
    Except String String :=
  match env.requestsGet url with
  | .error e => .error e
  | .ok soup =>
    let paragraphs : List String :=
      match soup.article with
      | some ps => ps
      | none => soup.paragraphs
    let text_chunks := paragraphs.filter (fun txt => pyTruthy txt)
    let full_text := String.intercalate "\n\n" text_chunks
    .ok (pySlice full_text 15000)

/-- Source lines 151–177: `generate_podcast_script`.  One completion call,
then `strip` and the hard cut `script[: max_chars + 200]`. -/
def generate_podcast_script (env : Env) (source_text : String)
    (max_chars : Nat) : Except String String :=
  match env.chat source_text max_chars with
  | .error e => .error e
  | .ok content =>
    let script := pyStrip content
    .ok (pySlice script (max_chars + 200))

/-- Source lines 180–201: `tts_with_elevenlabs`.  Returns the result of the
call together with the filesystem after it.  After `client.generate`
succeeds, `eleven_save` creates the transient mp3 and may raise (line 194),
`read_bytes` may raise (line 195) — on those paths the file stays on disk
because the unlink (line 197, wrapped in `try/except pass`) is not in a
`finally`; on the all-clear path the file is read and unlinked. -/
def tts_with_elevenlabs (env : Env) (fs : List String)
    (text api_key voice : String) : Except String (List Nat) × List String :=
  if env.elevenInstalled = false then
    (.error "elevenlabs package is not installed.", fs)
  else
    match env.elevenGenerate text api_key voice with
    | .error e => (.error e, fs)
    | .ok audio =>
      let fs1 := env.elevenTmp :: fs
      if env.elevenSaveFails then (.error "eleven_save raised", fs1)
      else if env.elevenReadFails then (.error "read_bytes raised", fs1)
      else
        let audio_bytes := audio
        let fs2 :=
          if env.elevenUnlinkFails then fs1 else fs1.erase env.elevenTmp
        (.ok audio_bytes, fs2)

/-- Source lines 204–222: `tts_with_openai`, same transient-file discipline
with the OpenAI streaming TTS call: entering the streaming call may raise
before any file exists; `stream_to_file` (line 214) creates the file and
may raise; `read_bytes` (line 216) may raise — on those two paths the file
stays on disk (unlink, line 218, is not in a `finally`). -/
def tts_with_openai (env : Env) (fs : List String) (text voice : String) :
    Except String (List Nat) × List String :=
  match env.openaiSpeech text voice with
  | .error e => (.error e, fs)
  | .ok audio =>
    let fs1 := env.openaiTmp :: fs
    if env.openaiStreamFails then (.error "stream_to_file raised", fs1)
    else if env.openaiReadFails then (.error "read_bytes raised", fs1)
    else
      let audio_bytes := audio
      let fs2 := if env.openaiUnlinkFails then fs1 else fs1.erase env.openaiTmp
      (.ok audio_bytes, fs2)

/-- Observable calls and warnings of one run of the action block. -/
inductive Event
  | callFirecrawl (url : String)
  | callRequests (url : String)
  | callChat
  | callElevenTTS
  | callOpenaiTTS
  | warn (tag : String)
deriving DecidableEq

/-- Result of a stage: value, `st.error` + `st.stop`, or raised exception. -/
inductive StageResult (α : Type)
  | ok (a : α)
  | stop (msg : String)
  | exc (msg : String)
deriving DecidableEq

/-- Source lines 237–262: resolve the source text.  Manual content has
priority; otherwise the URL is required; Firecrawl is tried first when its
key is truthy, any exception there is downgraded to a warning; whenever
`blog_text` is still falsy the requests fallback runs. -/
def decideSource (env : Env) (req_manual req_url req_fkey : String) :
    StageResult String × List Event :=
  if pyTruthy (pyStrip req_manual) then
    (.ok (pyStrip req_manual), [])
  else if pyTruthy (pyStrip req_url) = false then
    (.stop "Please either paste blog content or provide a URL.", [])
  else
    let url := pyStrip req_url
    if pyTruthy req_fkey then
      match fetch_content_with_firecrawl env url req_fkey with
      | .ok blog_text =>
        if pyTruthy blog_text then
          (.ok blog_text, [.callFirecrawl url])
        else
          match fetch_content_with_requests env url with
          | .ok t => (.ok t, [.callFirecrawl url, .callRequests url])
          | .error e => (.exc e, [.callFirecrawl url, .callRequests url])
      | .error _ =>
        match fetch_content_with_requests env url with
        | .ok t =>
          (.ok t,
            [.callFirecrawl url, .warn "firecrawl-fallback", .callRequests url])
        | .error e =>
          (.exc e,
            [.callFirecrawl url, .warn "firecrawl-fallback", .callRequests url])
    else
      match fetch_content_with_requests env url with
      | .ok t => (.ok t, [.callRequests url])
      | .error e => (.exc e, [.callRequests url])

/-- Source line 294: the voice handed to OpenAI TTS when the default engine
runs — the selected voice if it is an OpenAI voice, else `"coral"`. -/
def openaiVoiceFor (voice_choice : String) : String :=
  if openai_voices.contains voice_choice then voice_choice else "coral"

/-- Source line 278: the selected voice is an ElevenLabs voice and the
ElevenLabs key is truthy. -/
def wantsEleven (voice_choice ekey : String) : Bool :=
  elevenlabs_voices.contains voice_choice && pyTruthy ekey

/-- Source lines 272–298: the synthesis stage.  Tries ElevenLabs when
`wantsEleven`, downgrading any exception to a warning; whenever
`audio_bytes is None` afterwards, runs OpenAI TTS on `openaiVoiceFor`,
whose exception is not caught.  Returns `(audio, engine, voice)` on
success, plus the events and the filesystem after the stage. -/
def synthesisStage (env : Env) (voice_choice ekey script : String)
    (fs : List String) :
    StageResult (List Nat × String × String) × List Event × List String :=
  if wantsEleven voice_choice ekey then
    match tts_with_elevenlabs env fs script ekey voice_choice with
    | (.ok audio, fs1) =>
      (.ok (audio, "ElevenLabs", voice_choice), [.callElevenTTS], fs1)
    | (.error _, fs1) =>
      let v := openaiVoiceFor voice_choice
      match tts_with_openai env fs1 script v with
      | (.ok audio, fs2) =>
        (.ok (audio, "OpenAI TTS", v),
          [.callElevenTTS, .warn "elevenlabs-fallback", .callOpenaiTTS], fs2)
      | (.error e, fs2) =>
        (.exc e,
          [.callElevenTTS, .warn "elevenlabs-fallback", .callOpenaiTTS], fs2)
  else
    let v := openaiVoiceFor voice_choice
    match tts_with_openai env fs script v with
    | (.ok audio, fs2) => (.ok (audio, "OpenAI TTS", v), [.callOpenaiTTS], fs2)
    | (.error e, fs2) => (.exc e, [.callOpenaiTTS], fs2)

/-- The user-facing end state of one run of the action block. -/
inductive Outcome
  | stopped (msg : String)
  | fatal (msg : String)
  | done (script : String) (engine voice : String) (audio : List Nat)
deriving DecidableEq

/-- Everything observable about one run. -/
structure RunResult where
  outcome : Outcome
  events : List Event
  environ : List (String × String)
  fs : List String
deriving DecidableEq

/-- The form inputs of one request (sidebar + main inputs). -/
structure Request where
  openai_key : String
  firecrawl_key : String
  elevenlabs_key : String
  blog_url : String
  manual_content : String
  max_chars : Nat
  voice_choice : String

/-- Source lines 230–316: the main action block, assuming the button was
pressed.  Any exception escaping the stages lands in the outer
`except Exception` handler (`.fatal`). -/
def runPipeline (env : Env) (req : Request)
    (environ : List (String × String)) (fs : List String) : RunResult :=
  if pyTruthy req.openai_key = false then
    ⟨.stopped "OpenAI API key is required to generate the podcast.",
      [], environ, fs⟩
  else
    let environ1 := (get_openai_client environ req.openai_key).2
    match decideSource env req.manual_content req.blog_url req.firecrawl_key with
    | (.stop msg, evs) => ⟨.stopped msg, evs, environ1, fs⟩
    | (.exc msg, evs) => ⟨.fatal msg, evs, environ1, fs⟩
    | (.ok blog_text, evs) =>
      if pyTruthy blog_text = false then
        ⟨.stopped "No content found to summarize from the blog.",
          evs, environ1, fs⟩
      else
        match generate_podcast_script env blog_text req.max_chars with
        | .error e => ⟨.fatal e, evs ++ [.callChat], environ1, fs⟩
        | .ok script =>
          match synthesisStage env req.voice_choice req.elevenlabs_key
              script fs with
          | (.ok (audio, engine, voice), evs2, fs2) =>
            ⟨.done script engine voice audio,
              evs ++ [.callChat] ++ evs2, environ1, fs2⟩
          | (.exc e, evs2, fs2) =>
            ⟨.fatal e, evs ++ [.callChat] ++ evs2, environ1, fs2⟩
          | (.stop msg, evs2, fs2) =>
            ⟨.stopped msg, evs ++ [.callChat] ++ evs2, environ1, fs2⟩

/-! ### Basic facts about the embedding of Python string primitives -/

theorem pySlice_length_le (s : String) (n : Nat) : (pySlice s n).length ≤ n := by
  show (s.data.take n).length ≤ n
  simp [List.length_take]

theorem pyTruthy_iff (s : String) : pyTruthy s = true ↔ s ≠ "" := by
  simp [pyTruthy]

/-! ### Concrete environments used to exercise the theorems -/

/-- An environment where every provider succeeds. -/
def stubEnv : Env where
  firecrawlInstalled := true
  scrape := fun _ _ => .ok ⟨true, true, true, some "md text"⟩
  requestsGet := fun _ => .ok ⟨none, ["hello world"]⟩
  chat := fun _ _ => .ok "hello script"
  elevenInstalled := true
  elevenGenerate := fun _ _ _ => .ok [1, 2, 3]
  elevenTmp := "podcast_a_11labs.mp3"
  elevenSaveFails := false
  elevenReadFails := false
  elevenUnlinkFails := false
  openaiSpeech := fun _ _ => .ok [4, 5, 6]
  openaiTmp := "podcast_b_openai.mp3"
  openaiStreamFails := false
  openaiReadFails := false
  openaiUnlinkFails := false

/-- Like `stubEnv` but the Firecrawl scrape raises. -/
def envFirecrawlDown : Env where
  firecrawlInstalled := true
  scrape := fun _ _ => .error "boom"
  requestsGet := fun _ => .ok ⟨none, ["hello world"]⟩
  chat := fun _ _ => .ok "hello script"
  elevenInstalled := true
  elevenGenerate := fun _ _ _ => .ok [1, 2, 3]
  elevenTmp := "podcast_a_11labs.mp3"
  elevenSaveFails := false
  elevenReadFails := false
  elevenUnlinkFails := false
  openaiSpeech := fun _ _ => .ok [4, 5, 6]
  openaiTmp := "podcast_b_openai.mp3"
  openaiStreamFails := false
  openaiReadFails := false
  openaiUnlinkFails := false

/-- Like `stubEnv` but the Firecrawl markdown is whitespace only. -/
def envBlankMarkdown : Env where
  firecrawlInstalled := true
  scrape := fun _ _ => .ok ⟨true, true, true, some "  "⟩
  requestsGet := fun _ => .ok ⟨none, ["hello world"]⟩
  chat := fun _ _ => .ok "hello script"
  elevenInstalled := true
  elevenGenerate := fun _ _ _ => .ok [1, 2, 3]
  elevenTmp := "podcast_a_11labs.mp3"
  elevenSaveFails := false
  elevenReadFails := false
  elevenUnlinkFails := false
  openaiSpeech := fun _ _ => .ok [4, 5, 6]
  openaiTmp := "podcast_b_openai.mp3"
  openaiStreamFails := false
  openaiReadFails := false
  openaiUnlinkFails := false

/-- Like `stubEnv` but both TTS providers raise. -/
def envTTSDown : Env where
  firecrawlInstalled := true
  scrape := fun _ _ => .ok ⟨true, true, true, some "md text"⟩
  requestsGet := fun _ => .ok ⟨none, ["hello world"]⟩
  chat := fun _ _ => .ok "hello script"
  elevenInstalled := true
  elevenGenerate := fun _ _ _ => .error "eboom"
  elevenTmp := "podcast_a_11labs.mp3"
  elevenSaveFails := false
  elevenReadFails := false
  elevenUnlinkFails := false
  openaiSpeech := fun _ _ => .error "oboom"
  openaiTmp := "podcast_b_openai.mp3"
  openaiStreamFails := false
  openaiReadFails := false
  openaiUnlinkFails := false

/-- A request with no manual content and a blank URL. -/
def reqEmpty : Request :=
  ⟨"sk-test", "", "", "  ", "", 2000, "coral"⟩

/-- A URL-only request with no optional keys and an OpenAI voice. -/
def reqUrlBasic : Request :=
  ⟨"sk-test", "", "", "http://x", "", 2000, "coral"⟩

/-! ### The claims -/

/-- C3: for every source text and budget, a script returned by
`generate_podcast_script` has length at most `max_chars + 200`: the hard
truncation is applied to whatever the model returned. -/
theorem generate_podcast_script_length (env : Env) (source_text : String)
    (max_chars : Nat) (s : String)
    (h : generate_podcast_script env source_text max_chars = .ok s) :
    s.length ≤ max_chars + 200 := by
  unfold generate_podcast_script at h
  split at h
  · exact absurd h (by simp)
  · simp only [Except.ok.injEq] at h
    subst h
    exact pySlice_length_le _ _

theorem generate_podcast_script_length_witness :
    ("hello script" : String).length ≤ 500 + 200 :=
  generate_podcast_script_length stubEnv "src" 500 "hello script" rfl

/-- C4: when the manual content is non-empty after stripping, source
resolution returns the stripped manual content, makes no fetch call of
either kind, and ignores the URL entirely. -/
theorem decideSource_manual_priority (env : Env) (manual url fkey : String)
    (h : pyTruthy (pyStrip manual) = true) :
    decideSource env manual url fkey = (.ok (pyStrip manual), []) := by
  simp [decideSource, h]

theorem decideSource_manual_priority_witness :
    decideSource stubEnv " Hello world " "http://x" "fk" =
      (.ok (pyStrip " Hello world "), []) :=
  decideSource_manual_priority stubEnv " Hello world " "http://x" "fk"
    (by decide)

/-- C6: when both the manual content and the URL are empty after stripping,
the run stops with the input error and the event trace is empty: no fetch,
no completion call, and no TTS call happened. -/
theorem runPipeline_input_error (env : Env) (req : Request)
    (environ : List (String × String)) (fs : List String)
    (hk : pyTruthy req.openai_key = true)
    (hm : pyStrip req.manual_content = "")
    (hu : pyStrip req.blog_url = "") :
    (runPipeline env req environ fs).outcome =
        .stopped "Please either paste blog content or provide a URL." ∧
      (runPipeline env req environ fs).events = [] := by
  have h1 : pyTruthy (pyStrip req.manual_content) = false := by
    rw [hm]; decide
  have h2 : pyTruthy (pyStrip req.blog_url) = false := by
    rw [hu]; decide
  simp [runPipeline, hk, decideSource, h1, h2]

theorem runPipeline_input_error_witness :
    (runPipeline stubEnv reqEmpty [] []).outcome =
        .stopped "Please either paste blog content or provide a URL." ∧
      (runPipeline stubEnv reqEmpty [] []).events = [] :=
  runPipeline_input_error stubEnv reqEmpty [] [] (by decide) (by decide)
    (by decide)

/-- C1: when the chosen voice is an ElevenLabs voice but the ElevenLabs key
is absent (empty), a successful synthesis stage used the OpenAI engine with
the fixed voice `"coral"`, never the requested premium voice id. -/
theorem synthesis_premium_absent (env : Env) (voice_choice script : String)
    (fs : List String) (hv : voice_choice ∈ elevenlabs_voices)
    (audio : List Nat) (engine voice : String) (evs : List Event)
    (fs2 : List String)
    (h : synthesisStage env voice_choice "" script fs =
        (.ok (audio, engine, voice), evs, fs2)) :
    engine = "OpenAI TTS" ∧ voice = "coral" ∧ voice ≠ voice_choice := by
  have hv' : voice_choice = "Rachel" ∨ voice_choice = "Adam" ∨
      voice_choice = "Bella" ∨ voice_choice = "Dorothy" ∨
      voice_choice = "James" := by
    simpa [elevenlabs_voices] using hv
  have hw : wantsEleven voice_choice "" = false := by
    simp [wantsEleven, pyTruthy]
  have hnov : openai_voices.contains voice_choice = false := by
    rcases hv' with rfl | rfl | rfl | rfl | rfl <;> decide
  have hne : ("coral" : String) ≠ voice_choice := by
    rcases hv' with rfl | rfl | rfl | rfl | rfl <;> decide
  rw [synthesisStage, hw] at h
  simp only [Bool.false_eq_true, if_false, openaiVoiceFor, hnov] at h
  rw [tts_with_openai] at h
  cases hsp : env.openaiSpeech script "coral" with
  | error e => rw [hsp] at h; simp at h
  | ok audio2 =>
      rw [hsp] at h
      cases hst : env.openaiStreamFails with
      | true => simp [hst] at h
      | false =>
        cases hrd : env.openaiReadFails with
        | true => simp [hst, hrd] at h
        | false =>
          simp only [hst, hrd, Bool.false_eq_true, if_false, Prod.mk.injEq,
            StageResult.ok.injEq] at h
          exact ⟨h.1.2.1.symm, h.1.2.2.symm, h.1.2.2 ▸ hne⟩

theorem synthesis_premium_absent_witness :
    "OpenAI TTS" = "OpenAI TTS" ∧ "coral" = "coral" ∧
      ("coral" : String) ≠ "Rachel" :=
  synthesis_premium_absent stubEnv "Rachel" "script" [] (by decide)
    [4, 5, 6] "OpenAI TTS" "coral" [.callOpenaiTTS] [] rfl

/-- C2: when there is no manual content, the URL is usable, the Firecrawl
key is supplied and the Firecrawl fetch raises, source resolution still
succeeds with the basic-fetch output for the same URL, emitting the
fallback warning — the optional provider's failure never aborts the run. -/
theorem firecrawl_failure_fallback (env : Env) (manual url_raw fkey t e : String)
    (hm : pyStrip manual = "")
    (hu : pyTruthy (pyStrip url_raw) = true)
    (hf : pyTruthy fkey = true)
    (hfc : fetch_content_with_firecrawl env (pyStrip url_raw) fkey = .error e)
    (hreq : fetch_content_with_requests env (pyStrip url_raw) = .ok t) :
    decideSource env manual url_raw fkey =
      (.ok t, [.callFirecrawl (pyStrip url_raw), .warn "firecrawl-fallback",
        .callRequests (pyStrip url_raw)]) := by
  have h1 : pyTruthy (pyStrip manual) = false := by rw [hm]; decide
  simp [decideSource, h1, hu, hf, hfc, hreq]

theorem firecrawl_failure_fallback_witness :
    decideSource envFirecrawlDown "" "http://x" "fk" =
      (.ok "hello world", [.callFirecrawl (pyStrip "http://x"),
        .warn "firecrawl-fallback", .callRequests (pyStrip "http://x")]) :=
  firecrawl_failure_fallback envFirecrawlDown "" "http://x" "fk"
    "hello world" "boom" (by decide) (by decide) (by decide) rfl rfl

/-- C10: when Firecrawl succeeds but its stripped markdown is empty, source
resolution falls back to the basic fetcher exactly as on failure, but the
event trace contains no warning: the fallback is triggered by emptiness of
the fetched text, not only by a raised exception. -/
theorem firecrawl_empty_fallback (env : Env) (manual url_raw fkey t : String)
    (hm : pyStrip manual = "")
    (hu : pyTruthy (pyStrip url_raw) = true)
    (hf : pyTruthy fkey = true)
    (hfc : fetch_content_with_firecrawl env (pyStrip url_raw) fkey = .ok "")
    (hreq : fetch_content_with_requests env (pyStrip url_raw) = .ok t) :
    decideSource env manual url_raw fkey =
      (.ok t, [.callFirecrawl (pyStrip url_raw),
        .callRequests (pyStrip url_raw)]) := by
  have h1 : pyTruthy (pyStrip manual) = false := by rw [hm]; decide
  have h0 : pyTruthy "" = false := by decide
  simp [decideSource, h1, hu, hf, hfc, hreq, h0]

theorem firecrawl_empty_fallback_witness :
    decideSource envBlankMarkdown "" "http://x" "fk" =
      (.ok "hello world", [.callFirecrawl (pyStrip "http://x"),
        .callRequests (pyStrip "http://x")]) :=
  firecrawl_empty_fallback envBlankMarkdown "" "http://x" "fk"
    "hello world" (by decide) (by decide) (by decide) rfl rfl

/-- Like `stubEnv` but `read_bytes` raises in the ElevenLabs helper and
`stream_to_file` raises in the OpenAI helper — mid-call failures that occur
after the transient mp3 exists. -/
def envMidFail : Env where
  firecrawlInstalled := true
  scrape := fun _ _ => .ok ⟨true, true, true, some "md text"⟩
  requestsGet := fun _ => .ok ⟨none, ["hello world"]⟩
  chat := fun _ _ => .ok "hello script"
  elevenInstalled := true
  elevenGenerate := fun _ _ _ => .ok [1, 2, 3]
  elevenTmp := "podcast_a_11labs.mp3"
  elevenSaveFails := false
  elevenReadFails := true
  elevenUnlinkFails := false
  openaiSpeech := fun _ _ => .ok [4, 5, 6]
  openaiTmp := "podcast_b_openai.mp3"
  openaiStreamFails := true
  openaiReadFails := false
  openaiUnlinkFails := false

/-- C7 counterexample: the claim fails on the code.  When `read_bytes`
(line 195) or `stream_to_file` (line 214) raises after the transient mp3
was created, the call returns with an exception and the file is still on
disk: the unlink is not in a `finally`, so these failure paths skip it. -/
theorem tts_file_left_behind :
    ((tts_with_elevenlabs envMidFail [] "t" "k" "Rachel").1 =
        .error "read_bytes raised" ∧
      (tts_with_elevenlabs envMidFail [] "t" "k" "Rachel").2 =
        ["podcast_a_11labs.mp3"]) ∧
    ((tts_with_openai envMidFail [] "t" "coral").1 =
        .error "stream_to_file raised" ∧
      (tts_with_openai envMidFail [] "t" "coral").2 =
        ["podcast_b_openai.mp3"]) := by
  exact ⟨⟨rfl, rfl⟩, rfl, rfl⟩

/-- C7 amended: for both TTS helpers — on a successful return whose
best-effort unlink did not raise, no transient file from the call remains;
on the failure paths that occur before the file is created (missing
optional dependency, provider-call error) the filesystem is untouched; and
the returned value never depends on whether the unlink raised, so a failed
deletion cannot fail the operation.  (A failure of save/stream/read after
the file exists leaves it on disk, per the counterexample.) -/
theorem tts_transient_cleanup_amended (env : Env) (fs : List String)
    (text key voice : String) :
    ((env.elevenUnlinkFails = false → ∀ b,
        (tts_with_elevenlabs env fs text key voice).1 = .ok b →
          (tts_with_elevenlabs env fs text key voice).2 = fs) ∧
      (env.elevenInstalled = false →
        (tts_with_elevenlabs env fs text key voice).2 = fs) ∧
      (∀ e, env.elevenGenerate text key voice = .error e →
        (tts_with_elevenlabs env fs text key voice).2 = fs) ∧
      (tts_with_elevenlabs env fs text key voice).1 =
        (tts_with_elevenlabs { env with elevenUnlinkFails := false }
          fs text key voice).1) ∧
    ((env.openaiUnlinkFails = false → ∀ b,
        (tts_with_openai env fs text voice).1 = .ok b →
          (tts_with_openai env fs text voice).2 = fs) ∧
      (∀ e, env.openaiSpeech text voice = .error e →
        (tts_with_openai env fs text voice).2 = fs) ∧
      (tts_with_openai env fs text voice).1 =
        (tts_with_openai { env with openaiUnlinkFails := false }
          fs text voice).1) := by
  refine ⟨⟨?_, ?_, ?_, ?_⟩, ?_, ?_, ?_⟩
  · intro hu b hb
    cases hinst : env.elevenInstalled with
    | false => simp [tts_with_elevenlabs, hinst] at hb
    | true =>
      cases hg : env.elevenGenerate text key voice with
      | error e => simp [tts_with_elevenlabs, hinst, hg] at hb
      | ok audio =>
        cases hsv : env.elevenSaveFails with
        | true => simp [tts_with_elevenlabs, hinst, hg, hsv] at hb
        | false =>
          cases hrd : env.elevenReadFails with
          | true => simp [tts_with_elevenlabs, hinst, hg, hsv, hrd] at hb
          | false => simp [tts_with_elevenlabs, hinst, hg, hsv, hrd, hu]
  · intro hi
    simp [tts_with_elevenlabs, hi]
  · intro e he
    cases hinst : env.elevenInstalled with
    | false => simp [tts_with_elevenlabs, hinst]
    | true => simp [tts_with_elevenlabs, hinst, he]
  · cases hinst : env.elevenInstalled with
    | false => simp [tts_with_elevenlabs, hinst]
    | true =>
      cases hg : env.elevenGenerate text key voice with
      | error e => simp [tts_with_elevenlabs, hinst, hg]
      | ok audio =>
        cases hsv : env.elevenSaveFails with
        | true => simp [tts_with_elevenlabs, hinst, hg, hsv]
        | false =>
          cases hrd : env.elevenReadFails with
          | true => simp [tts_with_elevenlabs, hinst, hg, hsv, hrd]
          | false => simp [tts_with_elevenlabs, hinst, hg, hsv, hrd]
  · intro hu b hb
    cases hsp : env.openaiSpeech text voice with
    | error e => simp [tts_with_openai, hsp] at hb
    | ok audio =>
      cases hst : env.openaiStreamFails with
      | true => simp [tts_with_openai, hsp, hst] at hb
      | false =>
        cases hrd : env.openaiReadFails with
        | true => simp [tts_with_openai, hsp, hst, hrd] at hb
        | false => simp [tts_with_openai, hsp, hst, hrd, hu]
  · intro e he
    simp [tts_with_openai, he]
  · cases hsp : env.openaiSpeech text voice with
    | error e => simp [tts_with_openai, hsp]
    | ok audio =>
      cases hst : env.openaiStreamFails with
      | true => simp [tts_with_openai, hsp, hst]
      | false =>
        cases hrd : env.openaiReadFails with
        | true => simp [tts_with_openai, hsp, hst, hrd]
        | false => simp [tts_with_openai, hsp, hst, hrd]

theorem tts_transient_cleanup_amended_witness :
    (tts_with_elevenlabs stubEnv ["keep.txt"] "t" "k" "Rachel").2 =
        ["keep.txt"] ∧
      (tts_with_openai stubEnv ["keep.txt"] "t" "coral").2 = ["keep.txt"] ∧
      (tts_with_elevenlabs envTTSDown ["keep.txt"] "t" "k" "Rachel").2 =
        ["keep.txt"] ∧
      (tts_with_openai envTTSDown ["keep.txt"] "t" "coral").2 =
        ["keep.txt"] := by
  have h1 := tts_transient_cleanup_amended stubEnv ["keep.txt"] "t" "k"
    "Rachel"
  have h2 := tts_transient_cleanup_amended stubEnv ["keep.txt"] "t" "k"
    "coral"
  have h3 := tts_transient_cleanup_amended envTTSDown ["keep.txt"] "t" "k"
    "Rachel"
  have h4 := tts_transient_cleanup_amended envTTSDown ["keep.txt"] "t" "k"
    "coral"
  exact ⟨h1.1.1 rfl [1, 2, 3] rfl, h2.2.1 rfl [4, 5, 6] rfl,
    h3.1.2.2.1 "eboom" rfl, h4.2.2.1 "oboom" rfl⟩

/-- C8 counterexample: a pipeline run does not leave the process
environment unchanged — running the full successful scenario from an empty
environment ends with `OPENAI_API_KEY` stored in `os.environ` by
`get_openai_client` (source line 105). -/
theorem environ_not_unchanged :
    (runPipeline stubEnv reqUrlBasic [] []).environ ≠ [] := by decide

/-- C8 amended: credentials are passed explicitly through the call chain,
but a run mutates exactly one piece of process-wide state: whenever the
OpenAI key is non-empty, the environment afterwards is the prior
environment with `OPENAI_API_KEY` set to the request's key (and on the
missing-key path it is untouched). -/
theorem environ_mutation_exact (env : Env) (req : Request)
    (environ : List (String × String)) (fs : List String) :
    (runPipeline env req environ fs).environ =
      if pyTruthy req.openai_key then
        environSet environ "OPENAI_API_KEY" req.openai_key
      else environ := by
  unfold runPipeline
  cases hk : pyTruthy req.openai_key with
  | false => simp [hk]
  | true =>
    rcases hds : decideSource env req.manual_content req.blog_url
        req.firecrawl_key with ⟨r, evs⟩
    cases r with
    | stop m => simp [hk, hds, get_openai_client]
    | exc m => simp [hk, hds, get_openai_client]
    | ok blog_text =>
      cases hb : pyTruthy blog_text with
      | false => simp [hk, hds, hb, get_openai_client]
      | true =>
        cases hg : generate_podcast_script env blog_text req.max_chars with
        | error e => simp [hk, hds, hb, hg, get_openai_client]
        | ok script =>
          rcases hs : synthesisStage env req.voice_choice req.elevenlabs_key
              script fs with ⟨sr, evs2, fs2⟩
          cases sr with
          | ok a =>
            rcases a with ⟨audio, engine, voice⟩
            simp [hk, hds, hb, hg, hs, get_openai_client]
          | stop m => simp [hk, hds, hb, hg, hs, get_openai_client]
          | exc m => simp [hk, hds, hb, hg, hs, get_openai_client]

/-- The value returned by `tts_with_openai` does not depend on the files
already present; only the filesystem component does. -/
theorem tts_with_openai_fst_fs (env : Env) (fs fs1 : List String)
    (text voice : String) :
    (tts_with_openai env fs text voice).1 =
      (tts_with_openai env fs1 text voice).1 := by
  cases hsp : env.openaiSpeech text voice with
  | error e => simp [tts_with_openai, hsp]
  | ok audio =>
    cases hst : env.openaiStreamFails with
    | true => simp [tts_with_openai, hsp, hst]
    | false =>
      cases hrd : env.openaiReadFails with
      | true => simp [tts_with_openai, hsp, hst, hrd]
      | false => simp [tts_with_openai, hsp, hst, hrd]

/-- C5: the synthesis stage raises only if every attempted provider
failed — a stage exception means the default-provider call
(`tts_with_openai`) failed with that error, and, when ElevenLabs was
attempted, that it failed too; an attempted ElevenLabs failure is
downgraded to a warning followed by an OpenAI TTS attempt; and with no
ElevenLabs attempt, an OpenAI TTS failure is the stage's exception, with
no further fallback. -/
theorem synthesis_error_policy (env : Env) (voice_choice ekey script : String)
    (fs : List String) :
    (∀ e evs fs2,
        synthesisStage env voice_choice ekey script fs = (.exc e, evs, fs2) →
          (tts_with_openai env fs script
              (openaiVoiceFor voice_choice)).1 = .error e ∧
            (wantsEleven voice_choice ekey = true →
              ∃ e2, (tts_with_elevenlabs env fs script ekey voice_choice).1 =
                .error e2)) ∧
    (∀ e fs1, wantsEleven voice_choice ekey = true →
        tts_with_elevenlabs env fs script ekey voice_choice =
            (.error e, fs1) →
          (synthesisStage env voice_choice ekey script fs).2.1.contains
              (.warn "elevenlabs-fallback") = true ∧
            (synthesisStage env voice_choice ekey script fs).2.1.contains
              .callOpenaiTTS = true) ∧
    (∀ e fs1, wantsEleven voice_choice ekey = false →
        tts_with_openai env fs script (openaiVoiceFor voice_choice) =
            (.error e, fs1) →
          (synthesisStage env voice_choice ekey script fs).1 = .exc e) := by
  refine ⟨?_, ?_, ?_⟩
  · intro e evs fs2 h
    cases hw : wantsEleven voice_choice ekey with
    | false =>
      refine ⟨?_, by simp⟩
      rw [synthesisStage, hw] at h
      simp only [Bool.false_eq_true, if_false] at h
      cases hres : tts_with_openai env fs script (openaiVoiceFor voice_choice)
        with
      | mk tr fs2x =>
        cases tr with
        | ok a => rw [hres] at h; simp at h
        | error e2 =>
          rw [hres] at h
          simp only [Prod.mk.injEq, StageResult.exc.injEq] at h
          rw [h.1]
    | true =>
      cases ht : tts_with_elevenlabs env fs script ekey voice_choice with
      | mk tr fs1 =>
        cases tr with
        | ok a =>
          rw [synthesisStage, hw] at h
          simp [ht] at h
        | error e1 =>
          refine ⟨?_, fun _ => ⟨e1, rfl⟩⟩
          rw [synthesisStage, hw] at h
          simp only [ht] at h
          cases hres : tts_with_openai env fs1 script
              (openaiVoiceFor voice_choice) with
          | mk tr2 fs2x =>
            cases tr2 with
            | ok a2 => rw [hres] at h; simp at h
            | error e2 =>
              rw [hres] at h
              simp at h
              rw [tts_with_openai_fst_fs env fs fs1 script
                (openaiVoiceFor voice_choice), hres]
              simp [h.1]
  · intro e fs1 hw ht
    cases hres : tts_with_openai env fs1 script (openaiVoiceFor voice_choice)
      with
    | mk tr2 fs2x =>
      cases tr2 with
      | ok a =>
        have hstage : synthesisStage env voice_choice ekey script fs =
            (.ok (a, "OpenAI TTS", openaiVoiceFor voice_choice),
              [.callElevenTTS, .warn "elevenlabs-fallback", .callOpenaiTTS],
              fs2x) := by
          rw [synthesisStage, hw]
          simp [ht, hres]
        rw [hstage]
        exact ⟨rfl, rfl⟩
      | error e2 =>
        have hstage : synthesisStage env voice_choice ekey script fs =
            (.exc e2,
              [.callElevenTTS, .warn "elevenlabs-fallback", .callOpenaiTTS],
              fs2x) := by
          rw [synthesisStage, hw]
          simp [ht, hres]
        rw [hstage]
        exact ⟨rfl, rfl⟩
  · intro e fs1 hw ht
    rw [synthesisStage, hw]
    simp only [Bool.false_eq_true, if_false, ht]

theorem synthesis_error_policy_witness :
    ((tts_with_openai envTTSDown [] "s" (openaiVoiceFor "Rachel")).1 =
        .error "oboom") ∧
    ((synthesisStage envTTSDown "Rachel" "ek" "s" []).2.1.contains
        (.warn "elevenlabs-fallback") = true) ∧
    ((synthesisStage envTTSDown "Rachel" "" "s" []).1 = .exc "oboom") := by
  refine ⟨?_, ?_, ?_⟩
  · exact ((synthesis_error_policy envTTSDown "Rachel" "ek" "s" []).1 "oboom"
      [.callElevenTTS, .warn "elevenlabs-fallback", .callOpenaiTTS] []
      rfl).1
  · exact ((synthesis_error_policy envTTSDown "Rachel" "ek" "s" []).2.1
      "eboom" [] rfl rfl).1
  · exact (synthesis_error_policy envTTSDown "Rachel" "" "s" []).2.2
      "oboom" [] rfl rfl

/-- A 15001-character article, longer than the basic-fetch cap. -/
def longText : String := ⟨List.replicate 15001 'a'⟩

/-- Like `stubEnv` but Firecrawl returns the 15001-character markdown. -/
def envLongMarkdown : Env where
  firecrawlInstalled := true
  scrape := fun _ _ => .ok ⟨true, true, true, some longText⟩
  requestsGet := fun _ => .ok ⟨none, ["hello world"]⟩
  chat := fun _ _ => .ok "hello script"
  elevenInstalled := true
  elevenGenerate := fun _ _ _ => .ok [1, 2, 3]
  elevenTmp := "podcast_a_11labs.mp3"
  elevenSaveFails := false
  elevenReadFails := false
  elevenUnlinkFails := false
  openaiSpeech := fun _ _ => .ok [4, 5, 6]
  openaiTmp := "podcast_b_openai.mp3"
  openaiStreamFails := false
  openaiReadFails := false
  openaiUnlinkFails := false

theorem dropWhile_ws_replicate_a (n : Nat) :
    (List.replicate n 'a').dropWhile Char.isWhitespace =
      List.replicate n 'a' := by
  cases n with
  | zero => rfl
  | succ m =>
    have ha : Char.isWhitespace 'a' = false := by decide
    rw [List.replicate_succ, List.dropWhile_cons, ha]
    simp

theorem pyStrip_longText : pyStrip longText = longText := by
  show (⟨(((List.replicate 15001 'a').dropWhile
      Char.isWhitespace).reverse.dropWhile Char.isWhitespace).reverse⟩ :
        String) = ⟨List.replicate 15001 'a'⟩
  rw [dropWhile_ws_replicate_a, List.reverse_replicate,
    dropWhile_ws_replicate_a, List.reverse_replicate]

theorem longText_length : longText.length = 15001 := by
  show (List.replicate 15001 'a').length = 15001
  rw [List.length_replicate]

theorem longText_ne_empty : longText ≠ "" := by
  intro h
  have hl := congrArg String.length h
  rw [longText_length] at hl
  simp [String.length] at hl

/-- C9: the basic fallback fetcher truncates to at most 15000 characters,
while the Firecrawl path has no cap (it can return a 15001-character text)
and manual content has no cap either (a 15001-character manual text is
resolved as the source text unchanged). -/
theorem article_length_caps :
    (∀ (env : Env) (url t : String),
        fetch_content_with_requests env url = .ok t → t.length ≤ 15000) ∧
    (∃ (env : Env) (url key t : String),
        fetch_content_with_firecrawl env url key = .ok t ∧
          15000 < t.length) ∧
    (∃ (env : Env) (manual url fkey : String),
        (decideSource env manual url fkey).1 = .ok (pyStrip manual) ∧
          15000 < (pyStrip manual).length) := by
  refine ⟨?_, ?_, ?_⟩
  · intro env url t h
    unfold fetch_content_with_requests at h
    split at h
    · exact absurd h (by simp)
    · simp only [Except.ok.injEq] at h
      subst h
      exact pySlice_length_le _ _
  · refine ⟨envLongMarkdown, "u", "k", longText, ?_, ?_⟩
    · show fetch_content_with_firecrawl envLongMarkdown "u" "k" = .ok longText
      rw [fetch_content_with_firecrawl]
      simp [envLongMarkdown, pyStrip_longText]
    · rw [longText_length]; norm_num
  · refine ⟨stubEnv, longText, "", "", ?_, ?_⟩
    · have h : pyTruthy (pyStrip longText) = true := by
        rw [pyStrip_longText, pyTruthy_iff]
        exact longText_ne_empty
      simp [decideSource, h]
    · rw [pyStrip_longText, longText_length]; norm_num

theorem article_length_caps_witness :
    ("hello world" : String).length ≤ 15000 :=
  article_length_caps.1 stubEnv "u" "hello world" rfl

end BlogToPodcast
